import Mathlib

/-!
The `App` component of `frontend/src/App.jsx`.

A shallow embedding of the component's state (its ten `useState` cells), of its
event handlers and of the callbacks it hands to the conversation hook, followed
by the properties proved about them.

Conventions of the embedding.

* A handler is a function from the state it was rendered with to the state left
  by its setter calls, together with the list of calls it made to the outside
  world (`Effect`), in order.
* An `await` is a point where the handler is suspended: the collaborator may
  deliver callbacks meanwhile and the awaited promise is then fulfilled or
  rejected.  Both are taken from an `Await` value supplied by the environment.
* JavaScript strings are Lean strings (sequences of code points; an unpaired
  surrogate, which neither `trim` nor `toLowerCase` touches, has no counterpart).
  `trim` is embedded with the ECMAScript white space table; `toLowerCase` is
  embedded exactly on ASCII and takes the Unicode mapping of the other code
  points as a parameter (`UnicodeLower`).
* `sendUserMessage`, `sendUserActivity`, `console.error` and `setTimeout` are
  calls that return; only the awaited promises can be rejected.
* Time is a clock in milliseconds; a timer fires when the clock reaches its
  deadline.
-/

namespace App

/-! ## JavaScript string primitives used by the component -/

/-- The `WhiteSpace` and `LineTerminator` code points of ECMAScript, the ones
`String.prototype.trim` removes. -/
def isWhiteSpace (c : Char) : Bool :=
  c.toNat = 0x9 || c.toNat = 0xA || c.toNat = 0xB || c.toNat = 0xC || c.toNat = 0xD ||
  c.toNat = 0x20 || c.toNat = 0xA0 || c.toNat = 0x1680 ||
  (0x2000 ≤ c.toNat && c.toNat ≤ 0x200A) ||
  c.toNat = 0x2028 || c.toNat = 0x2029 || c.toNat = 0x202F || c.toNat = 0x205F ||
  c.toNat = 0x3000 || c.toNat = 0xFEFF

/-- Leading white space removed. -/
def trimStartChars (cs : List Char) : List Char :=
  cs.dropWhile isWhiteSpace

/-- Trailing white space removed. -/
def trimEndChars (cs : List Char) : List Char :=
  (cs.reverse.dropWhile isWhiteSpace).reverse

/-- `String.prototype.trim`. -/
def trim (s : String) : String :=
  ⟨trimEndChars (trimStartChars s.data)⟩

/-- The lower-case mapping of the code points outside ASCII: given the whole
string and a position in it, the characters that position maps to (a position
and not a character, because the mapping of a capital sigma depends on what
surrounds it).  The table is the platform's, so it is a parameter. -/
abbrev UnicodeLower := List Char → Nat → List Char

/-- Lower-case mapping of an ASCII character: `A`..`Z` go to `a`..`z`. -/
def asciiLower (c : Char) : Char :=
  if 65 ≤ c.toNat ∧ c.toNat ≤ 90 then Char.ofNat (c.toNat + 32) else c

/-- The characters of `whole` from position `i` on (`rest`), lower-cased. -/
def lowerFrom (L : UnicodeLower) (whole : List Char) : Nat → List Char → List Char
  | _, [] => []
  | i, c :: rest =>
    (if c.toNat < 128 then [asciiLower c] else L whole i) ++ lowerFrom L whole (i + 1) rest

/-- `String.prototype.toLowerCase`. -/
def toLowerCase (L : UnicodeLower) (s : String) : String :=
  ⟨lowerFrom L s.data 0 s.data⟩

/-- A Unicode table that leaves every code point outside ASCII as it is; used
where a concrete table is needed to evaluate the handlers. -/
def keepUnicode : UnicodeLower :=
  fun whole i => (whole.get? i).toList

/-- Truthiness of a string: every string but the empty one. -/
def truthy (s : String) : Bool :=
  !(s == "")

/-- The expression `x || ''` for `x` a string or `undefined`. -/
def orEmpty : Option String → String
  | some s => if truthy s then s else ""
  | none => ""

/-! ## Component state -/

/-- The ten `useState` cells of `App`. -/
structure State where
  isConnected : Bool
  agentId : String
  showPopup : Bool
  userAnswer : String
  isAuthenticated : Bool
  showError : Bool
  userTranscript : String
  agentResponse : String
  textInput : String
  isSpeakingState : Bool
  deriving DecidableEq, Repr

/-- The initial values passed to `useState`. -/
def initialState : State where
  isConnected := false
  agentId := ""
  showPopup := true
  userAnswer := ""
  isAuthenticated := false
  showError := false
  userTranscript := ""
  agentResponse := ""
  textInput := ""
  isSpeakingState := false

/-- The one callback the component ever passes to `setTimeout`:
`() => setShowError(false)`. -/
inductive TimerCallback where
  | hideError
  deriving DecidableEq, Repr

/-- Calls the component makes to the outside world. -/
inductive Effect where
  | endSession
  | getUserMedia
  | startSession (agentId : String) (connectionType : String)
  | consoleError
  | sendUserMessage (text : String)
  | sendUserActivity
  | setTimeout (cb : TimerCallback) (delay : Nat)
  | preventDefault
  deriving DecidableEq, Repr

/-! ## Callbacks handed to `useConversation` -/

/-- The part of a message event that `onMessage` reads: its `type`, and the
text of its `user_transcription_event` and `agent_response_event` members.
The outer `Option` is the member itself (`?.`), the inner one its text. -/
structure Message where
  type : String
  user_transcription_event : Option (Option String)
  agent_response_event : Option (Option String)
  deriving DecidableEq, Repr

/-- Reading `event?.field`: `undefined` when the event or the field is absent. -/
def optField : Option (Option String) → Option String
  | some (some s) => some s
  | _ => none

/-- The `onMessage` callback. -/
def onMessage (st : State) (message : Message) : State :=
  if message.type = "user_transcript" then
    { st with userTranscript := orEmpty (optField message.user_transcription_event) }
  else if message.type = "agent_response" then
    { st with agentResponse := orEmpty (optField message.agent_response_event) }
  else
    st

/-- The `onConnect` callback. -/
def onConnect (st : State) : State :=
  { st with isConnected := true }

/-- The `onDisconnect` callback. -/
def onDisconnect (st : State) : State :=
  { st with isConnected := false }

/-- The `onError` callback. -/
def onError (st : State) : State :=
  { st with isConnected := false }

/-- A callback invocation by the collaborator. -/
inductive Callback where
  | onConnect
  | onDisconnect
  | onError
  | onMessage (message : Message)
  deriving DecidableEq, Repr

/-- Running one callback. -/
def applyCallback (st : State) : Callback → State
  | Callback.onConnect => onConnect st
  | Callback.onDisconnect => onDisconnect st
  | Callback.onError => onError st
  | Callback.onMessage m => onMessage st m

/-- Running callbacks in the order the collaborator delivers them. -/
def deliver (cbs : List Callback) (st : State) : State :=
  cbs.foldl applyCallback st

/-- What happens at an `await`: the callbacks delivered while the handler is
suspended, and whether the promise is fulfilled (`true`) or rejected. -/
structure Await where
  callbacks : List Callback
  resolved : Bool
  deriving DecidableEq, Repr

/-- The environment of one run of `handleBlobClick`: the behaviour of each
promise the handler may await. -/
structure Collaborator where
  endSession : Await
  getUserMedia : Await
  startSession : Await
  deriving DecidableEq, Repr

/-- The result of an `async` handler: final state, calls made, and whether the
promise it returned was rejected (an exception left the handler). -/
structure Result where
  st : State
  effects : List Effect
  rejected : Bool
  deriving DecidableEq, Repr

/-! ## Handlers -/

/-- The handler `handleAnswerSubmit`. -/
def handleAnswerSubmit (L : UnicodeLower) (st : State) : State × List Effect :=
  if trim (toLowerCase L st.userAnswer) = "gasolina" then
    ({ st with isAuthenticated := true, showPopup := false, showError := false }, [])
  else
    ({ st with showError := true }, [Effect.setTimeout TimerCallback.hideError 2000])

/-- The handler `handleKeyPress`, given `e.key`. -/
def handleKeyPress (L : UnicodeLower) (st : State) (key : String) : State × List Effect :=
  if key = "Enter" then handleAnswerSubmit L st else (st, [])

/-- The handler `handleBlobClick`. -/
def handleBlobClick (c : Collaborator) (st : State) : Result :=
  if !truthy st.agentId || !st.isAuthenticated then
    { st := st, effects := [], rejected := false }
  else if st.isConnected then
    -- await conversation.endSession()
    let s1 := deliver c.endSession.callbacks st
    if c.endSession.resolved then
      { st := { s1 with userTranscript := "", agentResponse := "" },
        effects := [Effect.endSession], rejected := false }
    else
      { st := s1, effects := [Effect.endSession], rejected := true }
  else
    let s0 := { st with userTranscript := "", agentResponse := "" }
    -- await navigator.mediaDevices.getUserMedia
    let s1 := deliver c.getUserMedia.callbacks s0
    if c.getUserMedia.resolved then
      -- await conversation.startSession
      let s2 := deliver c.startSession.callbacks s1
      if c.startSession.resolved then
        { st := s2,
          effects := [Effect.getUserMedia, Effect.startSession st.agentId "websocket"],
          rejected := false }
      else
        { st := s2,
          effects := [Effect.getUserMedia, Effect.startSession st.agentId "websocket",
                      Effect.consoleError],
          rejected := false }
    else
      { st := s1, effects := [Effect.getUserMedia, Effect.consoleError], rejected := false }

/-- The handler `handleSendText`. -/
def handleSendText (st : State) : State × List Effect :=
  if !truthy (trim st.textInput) || !st.isConnected then
    (st, [])
  else
    ({ st with userTranscript := st.textInput, textInput := "" },
     [Effect.sendUserMessage st.textInput])

/-- The handler `handleTextKeyPress`, given `e.key` and `e.shiftKey`. -/
def handleTextKeyPress (st : State) (key : String) (shiftKey : Bool) : State × List Effect :=
  if key = "Enter" && !shiftKey then
    let r := handleSendText st
    (r.1, Effect.preventDefault :: r.2)
  else
    (st, [])

/-- The `onChange` handler of the gate input. -/
def answerChanged (st : State) (value : String) : State :=
  { st with userAnswer := value }

/-- The `onChange` handler of the composer input. -/
def textChanged (st : State) (value : String) : State × List Effect :=
  ({ st with textInput := value }, [Effect.sendUserActivity])

/-- The mount effect reading `VITE_ELEVENLABS_AGENT_ID`. -/
def loadAgentId (st : State) (envAgentId : Option String) : State :=
  match envAgentId with
  | some v => if truthy v then { st with agentId := v } else st
  | none => st

/-- The effect mirroring the hook's `isSpeaking` into `isSpeakingState`. -/
def syncSpeaking (st : State) (isSpeaking : Bool) : State :=
  { st with isSpeakingState := isSpeaking }

/-! ## The page as a transition system -/

/-- Running a timer callback. -/
def runTimer (st : State) : TimerCallback → State
  | TimerCallback.hideError => { st with showError := false }

/-- The page: component state, the clock in milliseconds, the pending timers
(deadline and callback, in the order they were set) and the calls made so far. -/
structure World where
  st : State
  now : Nat
  timers : List (Nat × TimerCallback)
  log : List Effect
  deriving DecidableEq, Repr

/-- The page right after the first render. -/
def initialWorld : World where
  st := initialState
  now := 0
  timers := []
  log := []

/-- The timers set by the `setTimeout` calls among `effects`, made at `now`. -/
def schedule (now : Nat) : List Effect → List (Nat × TimerCallback)
  | [] => []
  | Effect.setTimeout cb delay :: rest => (now + delay, cb) :: schedule now rest
  | _ :: rest => schedule now rest

/-- Recording the outcome of a handler run in the page. -/
def perform (w : World) (r : State × List Effect) : World :=
  { st := r.1, now := w.now, timers := w.timers ++ schedule w.now r.2, log := w.log ++ r.2 }

/-- Letting `ms` milliseconds pass: every timer whose deadline is reached
fires, in the order the timers were set. -/
def elapse (w : World) (ms : Nat) : World :=
  { st := (w.timers.filter (fun p => p.1 ≤ w.now + ms)).foldl (fun s p => runTimer s p.2) w.st,
    now := w.now + ms,
    timers := w.timers.filter (fun p => w.now + ms < p.1),
    log := w.log }

/-- Everything that can happen to the page. -/
inductive Event where
  | mount (envAgentId : Option String)
  | answerChange (value : String)
  | answerKeyPress (key : String)
  | answerSubmitClick
  | elapse (ms : Nat)
  | blobClick (c : Collaborator)
  | textChange (value : String)
  | textKeyPress (key : String) (shiftKey : Bool)
  | sendClick
  | callback (cb : Callback)
  | speakingChange (isSpeaking : Bool)
  deriving DecidableEq, Repr

/-- One transition of the page.  Handlers are run whether or not the element
they are attached to is currently rendered, so the transition system has at
least the behaviours of the page. -/
def step (L : UnicodeLower) (w : World) : Event → World
  | Event.mount env => { w with st := loadAgentId w.st env }
  | Event.answerChange v => { w with st := answerChanged w.st v }
  | Event.answerKeyPress key => perform w (handleKeyPress L w.st key)
  | Event.answerSubmitClick => perform w (handleAnswerSubmit L w.st)
  | Event.elapse ms => elapse w ms
  | Event.blobClick c =>
    perform w ((handleBlobClick c w.st).st, (handleBlobClick c w.st).effects)
  | Event.textChange v => perform w (textChanged w.st v)
  | Event.textKeyPress key shiftKey => perform w (handleTextKeyPress w.st key shiftKey)
  | Event.sendClick => perform w (handleSendText w.st)
  | Event.callback cb => { w with st := applyCallback w.st cb }
  | Event.speakingChange b => { w with st := syncSpeaking w.st b }

/-- Running a sequence of events. -/
def run (L : UnicodeLower) (w : World) (es : List Event) : World :=
  es.foldl (step L) w

/-- A state in the middle of a conversation: agent id set, gate unlocked,
session connected, both transcript fields filled. -/
def talkingState : State where
  isConnected := true
  agentId := "agent_1"
  showPopup := false
  userAnswer := "gasolina"
  isAuthenticated := true
  showError := false
  userTranscript := "hello"
  agentResponse := "hi there"
  textInput := ""
  isSpeakingState := false

/-- A collaborator whose promises are all fulfilled and who delivers no
callback while the handler is suspended. -/
def silentCollaborator : Collaborator where
  endSession := { callbacks := [], resolved := true }
  getUserMedia := { callbacks := [], resolved := true }
  startSession := { callbacks := [], resolved := true }

/-- What one transition may do to the gate: leave both gate flags alone, or
unlock and dismiss the popup. -/
def GateKept (s s' : State) : Prop :=
  (s'.isAuthenticated = s.isAuthenticated ∧ s'.showPopup = s.showPopup) ∨
  (s'.isAuthenticated = true ∧ s'.showPopup = false)

/-! ## Auxiliary facts -/

theorem orEmpty_some (s : String) : orEmpty (some s) = s := by
  by_cases h : s = ""
  · subst h; rfl
  · simp [orEmpty, truthy, h]

theorem deliver_cons (cb : Callback) (cbs : List Callback) (st : State) :
    deliver (cb :: cbs) st = deliver cbs (applyCallback st cb) := rfl

theorem applyCallback_isAuthenticated (st : State) (cb : Callback) :
    (applyCallback st cb).isAuthenticated = st.isAuthenticated := by
  cases cb <;> simp [applyCallback, onConnect, onDisconnect, onError, onMessage]
  split_ifs <;> rfl

theorem applyCallback_showPopup (st : State) (cb : Callback) :
    (applyCallback st cb).showPopup = st.showPopup := by
  cases cb <;> simp [applyCallback, onConnect, onDisconnect, onError, onMessage]
  split_ifs <;> rfl

theorem deliver_isAuthenticated (cbs : List Callback) (st : State) :
    (deliver cbs st).isAuthenticated = st.isAuthenticated := by
  induction cbs generalizing st with
  | nil => rfl
  | cons cb cbs ih => rw [deliver_cons, ih, applyCallback_isAuthenticated]

theorem deliver_showPopup (cbs : List Callback) (st : State) :
    (deliver cbs st).showPopup = st.showPopup := by
  induction cbs generalizing st with
  | nil => rfl
  | cons cb cbs ih => rw [deliver_cons, ih, applyCallback_showPopup]

/-- Callbacks other than `onConnect` never turn `isConnected` on. -/
theorem deliver_isConnected_of_not_mem (cbs : List Callback) (st : State)
    (hst : st.isConnected = false) (hcbs : Callback.onConnect ∉ cbs) :
    (deliver cbs st).isConnected = false := by
  induction cbs generalizing st with
  | nil => exact hst
  | cons cb cbs ih =>
    rw [deliver_cons]
    have hne : Callback.onConnect ≠ cb := fun h => hcbs (h ▸ List.mem_cons_self _ _)
    have hrest : Callback.onConnect ∉ cbs := fun h => hcbs (List.mem_cons_of_mem _ h)
    apply ih _ _ hrest
    cases cb with
    | onConnect => exact absurd rfl hne
    | onDisconnect => rfl
    | onError => rfl
    | onMessage m =>
      simp only [applyCallback, onMessage]
      split_ifs <;> exact hst

/-! ## The gate -/

/-- C1: With the gate locked, submitting the answer `s` leaves
`isAuthenticated` true exactly when `s`, lower-cased and then trimmed, equals
`gasolina`; `"  Gasolina "` and `"GASOLINA"` unlock, `"gasoline"` does not. -/
theorem handleAnswerSubmit_unlocks_iff (L : UnicodeLower) (st : State) (s : String)
    (hlocked : st.isAuthenticated = false) :
    ((handleAnswerSubmit L { st with userAnswer := s }).1.isAuthenticated = true ↔
      trim (toLowerCase L s) = "gasolina") ∧
    (handleAnswerSubmit L { st with userAnswer := "  Gasolina " }).1.isAuthenticated = true ∧
    (handleAnswerSubmit L { st with userAnswer := "GASOLINA" }).1.isAuthenticated = true ∧
    (handleAnswerSubmit L { st with userAnswer := "gasoline" }).1.isAuthenticated = false := by
  refine ⟨?_, ?_, ?_, ?_⟩
  · unfold handleAnswerSubmit
    by_cases h : trim (toLowerCase L s) = "gasolina"
    · simp [h]
    · simp [h, hlocked]
  · have h : trim (toLowerCase L "  Gasolina ") = "gasolina" := rfl
    simp [handleAnswerSubmit, h]
  · have h : trim (toLowerCase L "GASOLINA") = "gasolina" := rfl
    simp [handleAnswerSubmit, h]
  · have h : trim (toLowerCase L "gasoline") = "gasoline" := rfl
    have hne : ("gasoline" : String) ≠ "gasolina" := by decide
    simp [handleAnswerSubmit, h, hne, hlocked]

theorem handleAnswerSubmit_unlocks_iff_witness :
    initialState.isAuthenticated = false ∧
    (((handleAnswerSubmit keepUnicode
        { initialState with userAnswer := " \tGaSoLiNa\n" }).1.isAuthenticated = true ↔
      trim (toLowerCase keepUnicode " \tGaSoLiNa\n") = "gasolina") ∧
    (handleAnswerSubmit keepUnicode
        { initialState with userAnswer := "  Gasolina " }).1.isAuthenticated = true ∧
    (handleAnswerSubmit keepUnicode
        { initialState with userAnswer := "GASOLINA" }).1.isAuthenticated = true ∧
    (handleAnswerSubmit keepUnicode
        { initialState with userAnswer := "gasoline" }).1.isAuthenticated = false) :=
  ⟨rfl, handleAnswerSubmit_unlocks_iff keepUnicode initialState " \tGaSoLiNa\n" rfl⟩

/-! ## The blob: guard -/

/-- C4: When the agent id is empty or the gate is locked, `handleBlobClick`
does nothing: it makes no call at all (so none of `endSession`, `getUserMedia`,
`startSession`), its promise is fulfilled and the state is the one it started
from; as a page transition it leaves state, timers and call log untouched. -/
theorem handleBlobClick_guard_noop (L : UnicodeLower) (c : Collaborator) (w : World)
    (hguard : w.st.agentId = "" ∨ w.st.isAuthenticated = false) :
    handleBlobClick c w.st = { st := w.st, effects := [], rejected := false } ∧
    step L w (Event.blobClick c) = w := by
  have hcond : (!truthy w.st.agentId || !w.st.isAuthenticated) = true := by
    rcases hguard with h | h
    · simp [truthy, h]
    · simp [h]
  have h1 : handleBlobClick c w.st = { st := w.st, effects := [], rejected := false } := by
    unfold handleBlobClick
    rw [if_pos hcond]
  refine ⟨h1, ?_⟩
  simp [step, perform, h1, schedule]

theorem handleBlobClick_guard_noop_witness :
    (initialWorld.st.agentId = "" ∨ initialWorld.st.isAuthenticated = false) ∧
    (handleBlobClick ⟨⟨[Callback.onConnect], true⟩, ⟨[], true⟩, ⟨[], true⟩⟩ initialWorld.st =
        { st := initialWorld.st, effects := [], rejected := false } ∧
      step keepUnicode initialWorld
        (Event.blobClick ⟨⟨[Callback.onConnect], true⟩, ⟨[], true⟩, ⟨[], true⟩⟩) =
        initialWorld) :=
  ⟨Or.inl rfl, handleBlobClick_guard_noop keepUnicode _ initialWorld (Or.inl rfl)⟩

/-! ## The composer -/

/-- C5: When the draft is empty after trimming or the session is not
connected, `handleSendText` does nothing: no call is made (nothing is
forwarded) and the state, draft and transcripts included, is unchanged. -/
theorem handleSendText_guard_noop (st : State)
    (hguard : trim st.textInput = "" ∨ st.isConnected = false) :
    handleSendText st = (st, []) ∧
    (handleSendText st).1.textInput = st.textInput ∧
    (handleSendText st).1.userTranscript = st.userTranscript ∧
    (handleSendText st).1.agentResponse = st.agentResponse ∧
    (∀ m, Effect.sendUserMessage m ∉ (handleSendText st).2) := by
  have hcond : (!truthy (trim st.textInput) || !st.isConnected) = true := by
    rcases hguard with h | h
    · simp [truthy, h]
    · simp [h]
  have h1 : handleSendText st = (st, []) := by
    unfold handleSendText
    rw [if_pos hcond]
  simp [h1]

theorem handleSendText_guard_noop_witness :
    (trim ({ initialState with textInput := " \t ", isConnected := true }).textInput = "" ∨
      ({ initialState with textInput := " \t ", isConnected := true }).isConnected = false) ∧
    handleSendText { initialState with textInput := " \t ", isConnected := true } =
      ({ initialState with textInput := " \t ", isConnected := true }, []) :=
  ⟨Or.inl rfl,
   (handleSendText_guard_noop { initialState with textInput := " \t ", isConnected := true }
      (Or.inl rfl)).1⟩

/-- C6: When connected and the draft `m = textInput` is not empty after
trimming, `handleSendText` makes exactly one call, `sendUserMessage m` (the
draft untrimmed), sets `userTranscript` to `m`, empties `textInput`, and leaves
`agentResponse`, `isConnected` and every other field as they were. -/
theorem handleSendText_sends (st : State)
    (hconn : st.isConnected = true) (hdraft : trim st.textInput ≠ "") :
    (handleSendText st).2 = [Effect.sendUserMessage st.textInput] ∧
    (handleSendText st).1.userTranscript = st.textInput ∧
    (handleSendText st).1.textInput = "" ∧
    (handleSendText st).1.agentResponse = st.agentResponse ∧
    (handleSendText st).1.isConnected = st.isConnected ∧
    (handleSendText st).1 = { st with userTranscript := st.textInput, textInput := "" } := by
  have hcond : ¬ ((!truthy (trim st.textInput) || !st.isConnected) = true) := by
    simp [truthy, hconn, hdraft]
  have h1 : handleSendText st =
      ({ st with userTranscript := st.textInput, textInput := "" },
       [Effect.sendUserMessage st.textInput]) := by
    unfold handleSendText
    rw [if_neg hcond]
  simp [h1]

theorem handleSendText_sends_witness :
    ({ initialState with textInput := " hi ", isConnected := true }).isConnected = true ∧
    trim ({ initialState with textInput := " hi ", isConnected := true }).textInput ≠ "" ∧
    (handleSendText { initialState with textInput := " hi ", isConnected := true }).2 =
      [Effect.sendUserMessage " hi "] ∧
    (handleSendText { initialState with textInput := " hi ", isConnected := true }).1.userTranscript
      = " hi " :=
  ⟨rfl, by decide,
   (handleSendText_sends { initialState with textInput := " hi ", isConnected := true }
      rfl (by decide)).1,
   (handleSendText_sends { initialState with textInput := " hi ", isConnected := true }
      rfl (by decide)).2.1⟩

/-! ## Transcript callbacks -/

/-- C7: `onMessage` on an event of type `user_transcript` carrying text `t`
sets `userTranscript` to exactly `t`, whatever it held before (to the empty
string when the text is absent), and changes nothing else; on an event of type
`agent_response` carrying `r` it sets `agentResponse` to exactly `r` (empty
when absent) and changes nothing else; on any other type the state is
unchanged.  A `user_transcript` event with text `hello` gives `hello`. -/
theorem onMessage_overwrites (st : State) (m : Message) :
    (m.type = "user_transcript" →
      (∀ t, optField m.user_transcription_event = some t →
        onMessage st m = { st with userTranscript := t }) ∧
      (optField m.user_transcription_event = none →
        onMessage st m = { st with userTranscript := "" }) ∧
      (onMessage st m).agentResponse = st.agentResponse) ∧
    (m.type = "agent_response" →
      (∀ r, optField m.agent_response_event = some r →
        onMessage st m = { st with agentResponse := r }) ∧
      (optField m.agent_response_event = none →
        onMessage st m = { st with agentResponse := "" }) ∧
      (onMessage st m).userTranscript = st.userTranscript) ∧
    (m.type ≠ "user_transcript" → m.type ≠ "agent_response" → onMessage st m = st) ∧
    (onMessage st { type := "user_transcript", user_transcription_event := some (some "hello"),
                    agent_response_event := none }).userTranscript = "hello" := by
  refine ⟨?_, ?_, ?_, ?_⟩
  · intro hty
    refine ⟨?_, ?_, ?_⟩
    · intro t ht
      simp [onMessage, hty, ht, orEmpty_some]
    · intro ht
      simp [onMessage, hty, ht, orEmpty]
    · simp [onMessage, hty]
  · intro hty
    have hne : m.type ≠ "user_transcript" := by rw [hty]; decide
    refine ⟨?_, ?_, ?_⟩
    · intro r hr
      simp [onMessage, hty, hr, orEmpty_some]
    · intro hr
      simp [onMessage, hty, hr, orEmpty]
    · simp [onMessage, hty]
  · intro h1 h2
    simp [onMessage, h1, h2]
  · rfl

theorem onMessage_overwrites_witness :
    onMessage { initialState with userTranscript := "old", agentResponse := "kept" }
        { type := "user_transcript", user_transcription_event := some (some "new"),
          agent_response_event := none } =
      { initialState with userTranscript := "new", agentResponse := "kept" } ∧
    onMessage { initialState with userTranscript := "old", agentResponse := "kept" }
        { type := "agent_response", user_transcription_event := none,
          agent_response_event := some (some "reply") } =
      { initialState with userTranscript := "old", agentResponse := "reply" } :=
  ⟨((onMessage_overwrites { initialState with userTranscript := "old", agentResponse := "kept" }
        { type := "user_transcript", user_transcription_event := some (some "new"),
          agent_response_event := none }).1 rfl).1 "new" rfl,
   ((onMessage_overwrites { initialState with userTranscript := "old", agentResponse := "kept" }
        { type := "agent_response", user_transcription_event := none,
          agent_response_event := some (some "reply") }).2.1 rfl).1 "reply" rfl⟩

/-! ## The blob: stopping and starting -/

theorem handleBlobClick_connected (c : Collaborator) (st : State)
    (hid : st.agentId ≠ "") (hauth : st.isAuthenticated = true)
    (hconn : st.isConnected = true) :
    handleBlobClick c st =
      if c.endSession.resolved then
        { st := { deliver c.endSession.callbacks st with
                    userTranscript := "", agentResponse := "" },
          effects := [Effect.endSession], rejected := false }
      else
        { st := deliver c.endSession.callbacks st, effects := [Effect.endSession],
          rejected := true } := by
  have hcond : ¬ ((!truthy st.agentId || !st.isAuthenticated) = true) := by
    simp [truthy, hid, hauth]
  unfold handleBlobClick
  rw [if_neg hcond, if_pos hconn]

theorem handleBlobClick_disconnected (c : Collaborator) (st : State)
    (hid : st.agentId ≠ "") (hauth : st.isAuthenticated = true)
    (hdisc : st.isConnected = false) :
    handleBlobClick c st =
      if c.getUserMedia.resolved then
        if c.startSession.resolved then
          { st := deliver c.startSession.callbacks (deliver c.getUserMedia.callbacks
                    { st with userTranscript := "", agentResponse := "" }),
            effects := [Effect.getUserMedia, Effect.startSession st.agentId "websocket"],
            rejected := false }
        else
          { st := deliver c.startSession.callbacks (deliver c.getUserMedia.callbacks
                    { st with userTranscript := "", agentResponse := "" }),
            effects := [Effect.getUserMedia, Effect.startSession st.agentId "websocket",
                        Effect.consoleError],
            rejected := false }
      else
        { st := deliver c.getUserMedia.callbacks
                  { st with userTranscript := "", agentResponse := "" },
          effects := [Effect.getUserMedia, Effect.consoleError], rejected := false } := by
  have hcond : ¬ ((!truthy st.agentId || !st.isAuthenticated) = true) := by
    simp [truthy, hid, hauth]
  have hnot : ¬ (st.isConnected = true) := by simp [hdisc]
  unfold handleBlobClick
  rw [if_neg hcond, if_neg hnot]

/-- C3, as stated, fails: in a connected, unlocked state with an agent id, a
click whose `endSession` is fulfilled with no callback delivered completes with
`isConnected` still true (the transcripts are cleared). -/
theorem handleBlobClick_stop_leaves_isConnected :
    talkingState.agentId ≠ "" ∧ talkingState.isAuthenticated = true ∧
    talkingState.isConnected = true ∧
    (handleBlobClick silentCollaborator talkingState).effects = [Effect.endSession] ∧
    (handleBlobClick silentCollaborator talkingState).rejected = false ∧
    (handleBlobClick silentCollaborator talkingState).st.isConnected = true := by
  decide

/-- C3, amended: in a state with a non-empty agent id, unlocked and
connected, `handleBlobClick` calls `endSession` and nothing else; when that
call is fulfilled both transcript fields are empty on completion; the handler
itself never writes `isConnected`, whose final value is the one the callbacks
delivered during the call leave: still true when none is delivered, false when
the collaborator answers with `onDisconnect`. -/
theorem handleBlobClick_stop (c : Collaborator) (st : State)
    (hid : st.agentId ≠ "") (hauth : st.isAuthenticated = true)
    (hconn : st.isConnected = true) :
    (handleBlobClick c st).effects = [Effect.endSession] ∧
    (c.endSession.resolved = true →
      (handleBlobClick c st).st.userTranscript = "" ∧
      (handleBlobClick c st).st.agentResponse = "" ∧
      (handleBlobClick c st).rejected = false) ∧
    (handleBlobClick c st).st.isConnected = (deliver c.endSession.callbacks st).isConnected ∧
    (c.endSession.callbacks = [] → (handleBlobClick c st).st.isConnected = true) ∧
    (c.endSession.callbacks = [Callback.onDisconnect] →
      (handleBlobClick c st).st.isConnected = false) := by
  have h := handleBlobClick_connected c st hid hauth hconn
  have hconnEq : (handleBlobClick c st).st.isConnected =
      (deliver c.endSession.callbacks st).isConnected := by
    rw [h]; split_ifs <;> rfl
  refine ⟨?_, ?_, hconnEq, ?_, ?_⟩
  · rw [h]; split_ifs <;> rfl
  · intro hres
    rw [h, if_pos hres]
    exact ⟨rfl, rfl, rfl⟩
  · intro hcbs
    rw [hconnEq, hcbs]
    exact hconn
  · intro hcbs
    rw [hconnEq, hcbs]
    rfl

theorem handleBlobClick_stop_witness :
    talkingState.agentId ≠ "" ∧ talkingState.isAuthenticated = true ∧
    talkingState.isConnected = true ∧
    (handleBlobClick { silentCollaborator with
        endSession := { callbacks := [Callback.onDisconnect], resolved := true } }
      talkingState).st =
      { talkingState with isConnected := false, userTranscript := "", agentResponse := "" } ∧
    (handleBlobClick { silentCollaborator with
        endSession := { callbacks := [Callback.onDisconnect], resolved := true } }
      talkingState).effects = [Effect.endSession] :=
  ⟨by decide, rfl, rfl, by decide,
   (handleBlobClick_stop { silentCollaborator with
        endSession := { callbacks := [Callback.onDisconnect], resolved := true } }
      talkingState (by decide) rfl rfl).1⟩

/-- C9, as stated, fails: in a connected state holding transcripts, the
`onDisconnect` callback, and likewise `onError`, turns `isConnected` off and
leaves both transcript fields as they were. -/
theorem onDisconnect_keeps_transcripts :
    talkingState.isConnected = true ∧
    (applyCallback talkingState Callback.onDisconnect).isConnected = false ∧
    (applyCallback talkingState Callback.onDisconnect).userTranscript = "hello" ∧
    (applyCallback talkingState Callback.onDisconnect).agentResponse = "hi there" ∧
    (applyCallback talkingState Callback.onError).isConnected = false ∧
    (applyCallback talkingState Callback.onError).userTranscript = "hello" ∧
    (applyCallback talkingState Callback.onError).agentResponse = "hi there" := by
  decide

/-- C9, amended: from a connected state, a user stop (unlocked, agent id set,
`endSession` fulfilled and answered by `onDisconnect`) ends with `isConnected`
false and both transcript fields empty; the `onDisconnect` and the `onError`
callback end with `isConnected` false and change no other field, so the
transcript fields keep their values. -/
theorem session_end_paths (c : Collaborator) (st : State) (hconn : st.isConnected = true) :
    (st.agentId ≠ "" → st.isAuthenticated = true →
      c.endSession = { callbacks := [Callback.onDisconnect], resolved := true } →
      (handleBlobClick c st).st =
        { st with isConnected := false, userTranscript := "", agentResponse := "" }) ∧
    applyCallback st Callback.onDisconnect = { st with isConnected := false } ∧
    applyCallback st Callback.onError = { st with isConnected := false } := by
  refine ⟨?_, rfl, rfl⟩
  intro hid hauth hc
  rw [handleBlobClick_connected c st hid hauth hconn, hc]
  rfl

theorem session_end_paths_witness :
    talkingState.isConnected = true ∧
    applyCallback talkingState Callback.onDisconnect =
      { talkingState with isConnected := false } ∧
    (handleBlobClick { silentCollaborator with
        endSession := { callbacks := [Callback.onDisconnect], resolved := true } }
      talkingState).st =
      { talkingState with isConnected := false, userTranscript := "", agentResponse := "" } :=
  ⟨rfl,
   (session_end_paths silentCollaborator talkingState rfl).2.1,
   (session_end_paths { silentCollaborator with
        endSession := { callbacks := [Callback.onDisconnect], resolved := true } }
      talkingState rfl).1 (by decide) rfl rfl⟩

/-! ## Who writes `isConnected` -/

theorem foldl_runTimer_isConnected (ts : List (Nat × TimerCallback)) (st : State) :
    (ts.foldl (fun s p => runTimer s p.2) st).isConnected = st.isConnected := by
  induction ts generalizing st with
  | nil => rfl
  | cons t ts ih =>
    rw [List.foldl_cons, ih]
    cases t.2
    rfl

theorem handleAnswerSubmit_isConnected (L : UnicodeLower) (st : State) :
    (handleAnswerSubmit L st).1.isConnected = st.isConnected := by
  unfold handleAnswerSubmit
  split_ifs <;> rfl

theorem handleSendText_isConnected (st : State) :
    (handleSendText st).1.isConnected = st.isConnected := by
  unfold handleSendText
  split_ifs <;> rfl

/-- A click in a disconnected state ends connected only if `onConnect` was
delivered while it awaited the microphone or the session. -/
theorem handleBlobClick_isConnected_of_not_mem (c : Collaborator) (st : State)
    (hdisc : st.isConnected = false)
    (hcbs : Callback.onConnect ∉ c.getUserMedia.callbacks ++ c.startSession.callbacks) :
    (handleBlobClick c st).st.isConnected = false := by
  have h1 : Callback.onConnect ∉ c.getUserMedia.callbacks :=
    fun h => hcbs (List.mem_append_left _ h)
  have h2 : Callback.onConnect ∉ c.startSession.callbacks :=
    fun h => hcbs (List.mem_append_right _ h)
  have hs1 : (deliver c.getUserMedia.callbacks
      { st with userTranscript := "", agentResponse := "" }).isConnected = false :=
    deliver_isConnected_of_not_mem _ _ hdisc h1
  have hs2 : (deliver c.startSession.callbacks (deliver c.getUserMedia.callbacks
      { st with userTranscript := "", agentResponse := "" })).isConnected = false :=
    deliver_isConnected_of_not_mem _ _ hs1 h2
  have hnot : ¬ (st.isConnected = true) := by simp [hdisc]
  unfold handleBlobClick
  by_cases hg : (!truthy st.agentId || !st.isAuthenticated) = true
  · rw [if_pos hg]; exact hdisc
  · rw [if_neg hg, if_neg hnot]
    by_cases hgum : c.getUserMedia.resolved = true
    · simp only [hgum, if_true]
      split_ifs <;> exact hs2
    · rw [if_neg hgum]; exact hs1

/-- C10: In a disconnected, unlocked state with an agent id, a click whose
microphone request is rejected calls `getUserMedia`, then `console.error`, and
nothing else (so never `startSession`), its own promise is fulfilled (the
failure does not propagate), and `isConnected` is still false unless the
collaborator itself delivered `onConnect`; when the request is granted the
handler calls `startSession` with the agent id over `websocket` and still does
not write `isConnected`; `onConnect` sets it, and no page transition turns
`isConnected` on without an `onConnect` callback being delivered. -/
theorem handleBlobClick_start (L : UnicodeLower) (c : Collaborator) (st : State)
    (hid : st.agentId ≠ "") (hauth : st.isAuthenticated = true)
    (hdisc : st.isConnected = false) :
    (c.getUserMedia.resolved = false →
      (handleBlobClick c st).effects = [Effect.getUserMedia, Effect.consoleError] ∧
      (∀ a t, Effect.startSession a t ∉ (handleBlobClick c st).effects) ∧
      (handleBlobClick c st).rejected = false ∧
      (Callback.onConnect ∉ c.getUserMedia.callbacks →
        (handleBlobClick c st).st.isConnected = false)) ∧
    (c.getUserMedia.resolved = true →
      (handleBlobClick c st).effects.take 2 =
        [Effect.getUserMedia, Effect.startSession st.agentId "websocket"] ∧
      (handleBlobClick c st).rejected = false ∧
      (Callback.onConnect ∉ c.getUserMedia.callbacks ++ c.startSession.callbacks →
        (handleBlobClick c st).st.isConnected = false)) ∧
    (applyCallback (handleBlobClick c st).st Callback.onConnect).isConnected = true ∧
    (∀ (w : World) (e : Event), w.st.isConnected = false →
      (step L w e).st.isConnected = true →
      e = Event.callback Callback.onConnect ∨
      ∃ c', e = Event.blobClick c' ∧
        Callback.onConnect ∈ c'.getUserMedia.callbacks ++ c'.startSession.callbacks) := by
  have h := handleBlobClick_disconnected c st hid hauth hdisc
  refine ⟨?_, ?_, rfl, ?_⟩
  · intro hrej
    have hnot : ¬ (c.getUserMedia.resolved = true) := by simp [hrej]
    rw [h, if_neg hnot]
    refine ⟨rfl, ?_, rfl, ?_⟩
    · intro a t hmem
      simp at hmem
    · intro hcb
      exact deliver_isConnected_of_not_mem _ _ hdisc hcb
  · intro hres
    refine ⟨?_, ?_, ?_⟩
    · rw [h, if_pos hres]
      split_ifs <;> rfl
    · rw [h, if_pos hres]
      split_ifs <;> rfl
    · exact handleBlobClick_isConnected_of_not_mem c st hdisc
  · intro w e hw he
    cases e with
    | mount env =>
      exfalso
      simp only [step, loadAgentId] at he
      cases env with
      | none => simp [hw] at he
      | some v =>
        simp only at he
        split_ifs at he <;> simp [hw] at he
    | answerChange v => simp [step, answerChanged, hw] at he
    | answerKeyPress key =>
      exfalso
      simp only [step, perform, handleKeyPress] at he
      split_ifs at he
      · rw [handleAnswerSubmit_isConnected, hw] at he; simp at he
      · simp [hw] at he
    | answerSubmitClick =>
      exfalso
      simp only [step, perform] at he
      rw [handleAnswerSubmit_isConnected, hw] at he; simp at he
    | elapse ms =>
      exfalso
      simp only [step, elapse] at he
      rw [foldl_runTimer_isConnected, hw] at he; simp at he
    | blobClick c' =>
      right
      refine ⟨c', rfl, ?_⟩
      by_contra hmem
      have := handleBlobClick_isConnected_of_not_mem c' w.st hw hmem
      simp only [step, perform] at he
      rw [this] at he; simp at he
    | textChange v => simp [step, perform, textChanged, hw] at he
    | textKeyPress key shiftKey =>
      exfalso
      simp only [step, perform, handleTextKeyPress] at he
      split_ifs at he
      · simp only at he
        rw [handleSendText_isConnected, hw] at he; simp at he
      · simp [hw] at he
    | sendClick =>
      exfalso
      simp only [step, perform] at he
      rw [handleSendText_isConnected, hw] at he; simp at he
    | callback cb =>
      left
      cases cb with
      | onConnect => rfl
      | onDisconnect => simp [step, applyCallback, onDisconnect] at he
      | onError => simp [step, applyCallback, onError] at he
      | onMessage m =>
        exfalso
        simp only [step, applyCallback, onMessage] at he
        split_ifs at he <;> simp [hw] at he
    | speakingChange b => simp [step, syncSpeaking, hw] at he

theorem handleBlobClick_start_witness :
    ({ talkingState with isConnected := false }).agentId ≠ "" ∧
    ({ talkingState with isConnected := false }).isAuthenticated = true ∧
    ({ talkingState with isConnected := false }).isConnected = false ∧
    (handleBlobClick { silentCollaborator with
        getUserMedia := { callbacks := [], resolved := false } }
      { talkingState with isConnected := false }).effects =
      [Effect.getUserMedia, Effect.consoleError] ∧
    (handleBlobClick { silentCollaborator with
        getUserMedia := { callbacks := [], resolved := false } }
      { talkingState with isConnected := false }).st.isConnected = false :=
  ⟨by decide, rfl, rfl,
   ((handleBlobClick_start keepUnicode { silentCollaborator with
        getUserMedia := { callbacks := [], resolved := false } }
      { talkingState with isConnected := false } (by decide) rfl rfl).1 rfl).1,
   ((handleBlobClick_start keepUnicode { silentCollaborator with
        getUserMedia := { callbacks := [], resolved := false } }
      { talkingState with isConnected := false } (by decide) rfl rfl).1 rfl).2.2.2
      (by simp)⟩

/-! ## The gate never locks again -/

theorem foldl_runTimer_gate (ts : List (Nat × TimerCallback)) (st : State) :
    (ts.foldl (fun s p => runTimer s p.2) st).isAuthenticated = st.isAuthenticated ∧
    (ts.foldl (fun s p => runTimer s p.2) st).showPopup = st.showPopup := by
  induction ts generalizing st with
  | nil => exact ⟨rfl, rfl⟩
  | cons t ts ih =>
    rw [List.foldl_cons]
    refine ⟨(ih _).1.trans ?_, (ih _).2.trans ?_⟩ <;> cases t.2 <;> rfl

theorem handleAnswerSubmit_gate (L : UnicodeLower) (st : State) :
    GateKept st (handleAnswerSubmit L st).1 := by
  unfold handleAnswerSubmit GateKept
  split_ifs
  · exact Or.inr ⟨rfl, rfl⟩
  · exact Or.inl ⟨rfl, rfl⟩

theorem handleSendText_gate (st : State) : GateKept st (handleSendText st).1 := by
  unfold handleSendText GateKept
  split_ifs <;> exact Or.inl ⟨rfl, rfl⟩

theorem handleBlobClick_gate (c : Collaborator) (st : State) :
    GateKept st (handleBlobClick c st).st := by
  unfold handleBlobClick GateKept
  left
  split_ifs <;> simp [deliver_isAuthenticated, deliver_showPopup]

theorem step_gate (L : UnicodeLower) (w : World) (e : Event) :
    GateKept w.st (step L w e).st := by
  cases e with
  | mount env =>
    left
    cases env with
    | none => exact ⟨rfl, rfl⟩
    | some v =>
      simp only [step, loadAgentId]
      split_ifs <;> exact ⟨rfl, rfl⟩
  | answerChange v => exact Or.inl ⟨rfl, rfl⟩
  | answerKeyPress key =>
    simp only [step, perform, handleKeyPress]
    split_ifs
    · exact handleAnswerSubmit_gate L w.st
    · exact Or.inl ⟨rfl, rfl⟩
  | answerSubmitClick => exact handleAnswerSubmit_gate L w.st
  | elapse ms => exact Or.inl (foldl_runTimer_gate _ _)
  | blobClick c => exact handleBlobClick_gate c w.st
  | textChange v => exact Or.inl ⟨rfl, rfl⟩
  | textKeyPress key shiftKey =>
    simp only [step, perform, handleTextKeyPress]
    split_ifs
    · exact handleSendText_gate w.st
    · exact Or.inl ⟨rfl, rfl⟩
  | sendClick => exact handleSendText_gate w.st
  | callback cb =>
    exact Or.inl ⟨applyCallback_isAuthenticated _ _, applyCallback_showPopup _ _⟩
  | speakingChange b => exact Or.inl ⟨rfl, rfl⟩

theorem run_append (L : UnicodeLower) (w : World) (es es' : List Event) :
    run L w (es ++ es') = run L (run L w es) es' := by
  simp [run, List.foldl_append]

/-- Along any run, an unlocked gate implies a dismissed popup, provided that
held at the start. -/
theorem run_popup_inv (L : UnicodeLower) (es : List Event) (w : World)
    (hw : w.st.isAuthenticated = true → w.st.showPopup = false) :
    (run L w es).st.isAuthenticated = true → (run L w es).st.showPopup = false := by
  induction es generalizing w with
  | nil => exact hw
  | cons e es ih =>
    apply ih (step L w e)
    intro hauth
    rcases step_gate L w e with ⟨h1, h2⟩ | ⟨_, h2⟩
    · rw [h2]; exact hw (h1 ▸ hauth)
    · exact h2

theorem run_auth_mono (L : UnicodeLower) (es : List Event) (w : World)
    (hw : w.st.isAuthenticated = true) : (run L w es).st.isAuthenticated = true := by
  induction es generalizing w with
  | nil => exact hw
  | cons e es ih =>
    apply ih (step L w e)
    rcases step_gate L w e with ⟨h1, _⟩ | ⟨h1, _⟩
    · rw [h1]; exact hw
    · exact h1

/-- C8: Along every sequence of events from the first render, once
`isAuthenticated` is true (after the events `es`) it is true and `showPopup`
is false after any further events `es'`, the empty continuation included. -/
theorem unlock_irreversible (L : UnicodeLower) (es es' : List Event)
    (hunlocked : (run L initialWorld es).st.isAuthenticated = true) :
    (run L initialWorld (es ++ es')).st.isAuthenticated = true ∧
    (run L initialWorld (es ++ es')).st.showPopup = false := by
  have hauth : (run L initialWorld (es ++ es')).st.isAuthenticated = true := by
    rw [run_append]
    exact run_auth_mono L es' _ hunlocked
  refine ⟨hauth, ?_⟩
  apply run_popup_inv L (es ++ es') initialWorld _ hauth
  intro h
  exact absurd h (by decide)

theorem unlock_irreversible_witness :
    (run keepUnicode initialWorld
      [Event.answerChange "Gasolina", Event.answerSubmitClick]).st.isAuthenticated = true ∧
    (run keepUnicode initialWorld
      ([Event.answerChange "Gasolina", Event.answerSubmitClick] ++
       [Event.answerChange "rock", Event.answerSubmitClick, Event.elapse 2000,
        Event.callback Callback.onError])).st.isAuthenticated = true ∧
    (run keepUnicode initialWorld
      ([Event.answerChange "Gasolina", Event.answerSubmitClick] ++
       [Event.answerChange "rock", Event.answerSubmitClick, Event.elapse 2000,
        Event.callback Callback.onError])).st.showPopup = false :=
  ⟨by decide,
   unlock_irreversible keepUnicode
     [Event.answerChange "Gasolina", Event.answerSubmitClick]
     [Event.answerChange "rock", Event.answerSubmitClick, Event.elapse 2000,
      Event.callback Callback.onError] (by decide)⟩

/-! ## The error flag and its timers -/

theorem handleAnswerSubmit_mismatch (L : UnicodeLower) (st : State)
    (hmiss : trim (toLowerCase L st.userAnswer) ≠ "gasolina") :
    handleAnswerSubmit L st =
      ({ st with showError := true }, [Effect.setTimeout TimerCallback.hideError 2000]) := by
  unfold handleAnswerSubmit
  rw [if_neg hmiss]

/-- C2, as stated, fails: `rock` is submitted at time 0 and again at time
1000; at time 2000, inside the window `[1000, 3000)` of the second submission,
the timer of the first one has fired and `showError` is false, while the timer
of the second one is still pending. -/
theorem second_mismatch_cleared_early :
    (run keepUnicode initialWorld
      [Event.answerChange "rock", Event.answerSubmitClick, Event.elapse 1000,
       Event.answerSubmitClick]).now = 1000 ∧
    (run keepUnicode initialWorld
      [Event.answerChange "rock", Event.answerSubmitClick, Event.elapse 1000,
       Event.answerSubmitClick]).st.showError = true ∧
    (run keepUnicode initialWorld
      [Event.answerChange "rock", Event.answerSubmitClick, Event.elapse 1000,
       Event.answerSubmitClick, Event.elapse 1000]).now = 2000 ∧
    (run keepUnicode initialWorld
      [Event.answerChange "rock", Event.answerSubmitClick, Event.elapse 1000,
       Event.answerSubmitClick, Event.elapse 1000]).st.showError = false ∧
    (run keepUnicode initialWorld
      [Event.answerChange "rock", Event.answerSubmitClick, Event.elapse 1000,
       Event.answerSubmitClick, Event.elapse 1000]).timers =
      [(3000, TimerCallback.hideError)] := by
  decide

/-- C2, amended: after a mismatching submission at time `t` with no timer
pending, `showError` is true at once, stays true for every delay below 2000
and is false from `t + 2000` on when nothing else is submitted; a second
mismatching submission at `t + d1` with `0 < d1 < 2000` does not reset the
delay: `showError` is true from `t + d1` up to `t + 2000`, is cleared at
`t + 2000` by the timer of the first submission and stays false afterwards. -/
theorem showError_timers (L : UnicodeLower) (w : World)
    (hnone : w.timers = [])
    (hmiss : trim (toLowerCase L w.st.userAnswer) ≠ "gasolina") :
    (step L w Event.answerSubmitClick).st.showError = true ∧
    (∀ d, d < 2000 →
      (run L w [Event.answerSubmitClick, Event.elapse d]).st.showError = true) ∧
    (∀ d, 2000 ≤ d →
      (run L w [Event.answerSubmitClick, Event.elapse d]).st.showError = false) ∧
    (∀ d1 s2, 0 < d1 → d1 < 2000 → trim (toLowerCase L s2) ≠ "gasolina" →
      (run L w [Event.answerSubmitClick, Event.elapse d1, Event.answerChange s2,
                Event.answerSubmitClick]).now = w.now + d1 ∧
      (run L w [Event.answerSubmitClick, Event.elapse d1, Event.answerChange s2,
                Event.answerSubmitClick]).st.showError = true ∧
      (∀ d2, d1 + d2 < 2000 →
        (run L w [Event.answerSubmitClick, Event.elapse d1, Event.answerChange s2,
                  Event.answerSubmitClick, Event.elapse d2]).st.showError = true) ∧
      (∀ d2, 2000 ≤ d1 + d2 →
        (run L w [Event.answerSubmitClick, Event.elapse d1, Event.answerChange s2,
                  Event.answerSubmitClick, Event.elapse d2]).st.showError = false)) := by
  have h1 := handleAnswerSubmit_mismatch L w.st hmiss
  refine ⟨?_, ?_, ?_, ?_⟩
  · simp [step, perform, h1]
  · intro d hd
    have hlt : ¬ (w.now + 2000 ≤ w.now + d) := by omega
    simp [run, step, perform, h1, elapse, schedule, hnone, List.filter, hlt]
  · intro d hd
    have hle : w.now + 2000 ≤ w.now + d := by omega
    simp [run, step, perform, h1, elapse, schedule, hnone, List.filter, hle, runTimer]
  · intro d1 s2 hpos hd1 hmiss2
    have hlt : ¬ (w.now + 2000 ≤ w.now + d1) := by omega
    have hgt : w.now + d1 < w.now + 2000 := by omega
    have hw2 : run L w [Event.answerSubmitClick, Event.elapse d1, Event.answerChange s2,
                Event.answerSubmitClick] =
        { st := { w.st with showError := true, userAnswer := s2 },
          now := w.now + d1,
          timers := [(w.now + 2000, TimerCallback.hideError),
                     (w.now + d1 + 2000, TimerCallback.hideError)],
          log := w.log ++ [Effect.setTimeout TimerCallback.hideError 2000,
                           Effect.setTimeout TimerCallback.hideError 2000] } := by
      have h2 : handleAnswerSubmit L { w.st with showError := true, userAnswer := s2 } =
          ({ w.st with showError := true, userAnswer := s2 },
           [Effect.setTimeout TimerCallback.hideError 2000]) :=
        handleAnswerSubmit_mismatch L _ hmiss2
      simp [run, step, perform, h1, elapse, schedule, hnone, List.filter, hlt, hgt,
        answerChanged, h2]
    have hsplit : ∀ d2, run L w [Event.answerSubmitClick, Event.elapse d1,
        Event.answerChange s2, Event.answerSubmitClick, Event.elapse d2] =
        elapse (run L w [Event.answerSubmitClick, Event.elapse d1, Event.answerChange s2,
                Event.answerSubmitClick]) d2 := by
      intro d2
      rfl
    refine ⟨?_, ?_, ?_, ?_⟩
    · rw [hw2]
    · rw [hw2]
    · intro d2 hd2
      rw [hsplit, hw2]
      have ha : ¬ (w.now + 2000 ≤ w.now + d1 + d2) := by omega
      have hb : ¬ (w.now + d1 + 2000 ≤ w.now + d1 + d2) := by omega
      simp [elapse, List.filter, ha, hb]
    · intro d2 hd2
      rw [hsplit, hw2]
      have ha : w.now + 2000 ≤ w.now + d1 + d2 := by omega
      by_cases hb : w.now + d1 + 2000 ≤ w.now + d1 + d2
      · simp [elapse, List.filter, ha, hb, runTimer]
      · simp [elapse, List.filter, ha, hb, runTimer]

theorem showError_timers_witness :
    (step keepUnicode initialWorld (Event.answerChange "rock")).timers = [] ∧
    trim (toLowerCase keepUnicode
      (step keepUnicode initialWorld (Event.answerChange "rock")).st.userAnswer) ≠ "gasolina" ∧
    (run keepUnicode (step keepUnicode initialWorld (Event.answerChange "rock"))
      [Event.answerSubmitClick, Event.elapse 1999]).st.showError = true ∧
    (run keepUnicode (step keepUnicode initialWorld (Event.answerChange "rock"))
      [Event.answerSubmitClick, Event.elapse 2000]).st.showError = false :=
  ⟨rfl, by decide,
   (showError_timers keepUnicode (step keepUnicode initialWorld (Event.answerChange "rock"))
      rfl (by decide)).2.1 1999 (by decide),
   (showError_timers keepUnicode (step keepUnicode initialWorld (Event.answerChange "rock"))
      rfl (by decide)).2.2.1 2000 (by decide)⟩

end App
